import Mathlib

/-!
Verification of the DockerShell tool (`src/dockershell/ds.py`) against its
natural-language specification.

Shallow embedding conventions:

* A filesystem path is a list of name components of a canonical absolute
  POSIX path (`[]` is the filesystem root `/`).  The repository's code
  canonicalizes paths with `pathlib.Path.resolve`; symlinks are not modelled,
  so `resolve` acts lexically (it eliminates `..` components).
* The filesystem is a partial map from paths to file contents.  Directory
  existence and writability always hold in the model: the code's only
  filesystem reads are `Path.exists` probes on candidate definition files
  and its only writes go through `createDockerfile`.
* External effects (prints to stdout, `os.chdir`, `Path.unlink`, file
  writes, `subprocess.Popen` spawns and the `os.execlp` process
  replacement) are recorded as an explicit trace of `Eff` values, and the
  way control leaves `cli` is an explicit `Outcome`.
* The `git rev-parse --show-toplevel` query and the exit statuses of
  spawned commands are inputs of the model (`GitQueryResult` and an exit
  code oracle), since they are behaviour of external processes.
-/

/-- A canonical absolute path, as its list of components ([] is `/`). -/
abbrev DsPath := List String

/-- Rendering of a path as `str(pathlib.Path(...))` renders it: `/a/b`. -/
def renderPath (p : DsPath) : String :=
  "/" ++ String.intercalate "/" p

/-- The parent directory, as `pathlib.Path.parent` (parent of `/` is `/`). -/
def parentDir (p : DsPath) : DsPath := p.dropLast

/-- ASCII whitespace, as recognized by Python `str.strip` and `str.split`
and by `shlex` word splitting. -/
def isPyWhitespace (c : Char) : Bool :=
  c = ' ' || c = '\t' || c = '\n' || c = '\r' || c = '\x0b' || c = '\x0c'

/-- Split a character list at every character satisfying `p` (separators are
dropped, empty fields kept), accumulating the current field in `acc`. -/
def splitCharsAux (p : Char → Bool) : List Char → List Char → List (List Char)
  | [], acc => [acc.reverse]
  | c :: cs, acc =>
    if p c then acc.reverse :: splitCharsAux p cs []
    else splitCharsAux p cs (c :: acc)

/-- Split a string at every character satisfying `p` (kernel-computable
equivalent of `String.split`). -/
def splitStrOn (s : String) (p : Char → Bool) : List String :=
  (splitCharsAux p s.data []).map String.mk

/-- Strip leading and trailing whitespace, as Python `str.strip()` does
(kernel-computable equivalent of `String.trim`). -/
def strTrim (s : String) : String :=
  String.mk (((s.data.dropWhile isPyWhitespace).reverse.dropWhile
    isPyWhitespace).reverse)

/-- Parse an absolute path string into components, as `pathlib.PurePosixPath`
does: empty components (doubled slashes) and `.` components are dropped. -/
def pathOfString (s : String) : DsPath :=
  (splitStrOn s (fun c => c = '/')).filter (fun t => t ≠ "" && t ≠ ".")

/-- Lexical model of `pathlib.Path.resolve`: eliminate `..` components.
Symlinks are outside the model, so resolution is purely lexical. -/
def resolvePath (p : DsPath) : DsPath :=
  p.foldl (fun acc c => if c = ".." then acc.dropLast else acc ++ [c]) []

/-- The chain of directories from `p` (inclusive) up to the filesystem root
(inclusive), nearest first.  This is exactly the sequence
`(Path.cwd() / "foo").parents` iterated over in `getDockerfile` when
`p` is the current directory. -/
def chain (p : DsPath) : List DsPath :=
  (List.range (p.length + 1)).map (fun k => p.take (p.length - k))

/-- The filesystem: a partial map from paths to file contents. -/
abbrev Fs := DsPath → Option String

/-- Result of running `git rev-parse --show-toplevel` from the current
directory: its standard output on success, the recognized exit-128
"not a repository" failure, or any other failure (with its exit code). -/
inductive GitQueryResult where
  | output (stdout : String)
  | errorReturnCode128
  | otherError (code : Nat)

/-- The canonicalized path parsed from a successful git query's output:
`Path(gitRoot().strip()).resolve()` (ds.py line 35). -/
def rootOf (out : String) : DsPath :=
  resolvePath (pathOfString (strTrim out))

/-- Model of `getRoot` (ds.py lines 26-39): on success, the stripped git
output is parsed and resolved; on the recognized `ErrorReturnCode_128`
the current working directory (pre-set default) is returned; any other
exception propagates to the caller. -/
def getRoot (cwd : DsPath) (q : GitQueryResult) : Except Nat DsPath :=
  match q with
  | .output out => .ok (rootOf out)
  | .errorReturnCode128 => .ok cwd
  | .otherError e => .error e

/-- The definition-file name probed for by `getDockerfile`. -/
def dockerfileName : String := "Dockerfile"

/-- The loop body of `getDockerfile` (ds.py lines 50-58), iterating over the
ancestor chain: return the first existing `Dockerfile` candidate; if the
ancestor reached is `root`, return its candidate whether or not it exists;
after the loop (chain exhausted at the filesystem root), return the root's
candidate. -/
def searchChain (fs : Fs) (root : DsPath) : List DsPath → DsPath
  | [] => root ++ [dockerfileName]
  | parent :: rest =>
    let candidate := parent ++ [dockerfileName]
    if (fs candidate).isSome then candidate
    else if parent = root then candidate
    else searchChain fs root rest

/-- Model of `getDockerfile` (ds.py lines 42-58): walk the ancestors of the
current directory, nearest first (`(cwd / "foo").parents` starts at `cwd`
itself), using `searchChain`. -/
def getDockerfile (fs : Fs) (root : DsPath) (cwd : DsPath) : DsPath :=
  searchChain fs root (chain cwd)

/-- Modelled from the spec (section 4.2): the ancestors of the current
directory, nearest first, up to and including the build root. -/
def upToRoot (root : DsPath) : List DsPath → List DsPath
  | [] => []
  | p :: rest => if p = root then [p] else p :: upToRoot root rest

/-- Modelled from the spec (section 4.2): return the first ancestor between
the current directory and the root (inclusive, nearest first) whose
definition-file candidate exists; if none exists up to and including the
root, return the root's candidate path. -/
def specLocateDefinitionFile (fs : Fs) (root : DsPath) (cwd : DsPath) : DsPath :=
  match (upToRoot root (chain cwd)).find? (fun p => (fs (p ++ [dockerfileName])).isSome) with
  | some p => p ++ [dockerfileName]
  | none => root ++ [dockerfileName]

/-- The lines of the fixed Dockerfile template written by `createDockerfile`
(ds.py lines 66-151), after the `textwrap.dedent` call evaluated at the
source literal: `dedent` first normalizes every whitespace-only line to
empty (including the literal's final 4-space line before the closing
quotes), then removes the common 8-space margin from every line that
carries it (the first line keeps 4 extra spaces of its original 12); the
written file therefore ends with a newline. -/
def dockerfile_template_lines : List String :=
  [ "    FROM ubuntu:latest AS base"
  , ""
  , "ARG USER"
  , "ENV user=${USER}"
  , "ARG UID"
  , "ENV uid=${UID}"
  , "ARG ROOTDIR"
  , "ENV rootdir=${ROOTDIR}"
  , "ARG WORKDIR"
  , "ENV workdir=${WORKDIR}"
  , ""
  , "# Keep apt tools from prompting"
  , "ARG DEBIAN_FRONTEND=noninteractive"
  , "ENV TZ=America/Ny"
  , ""
  , "# Inflate the system and set up APT."
  , "RUN yes | unminimize"
  , "RUN apt-get -y install dialog apt-utils tzdata git"
  , "RUN git clone https://github.com/timothyvanderaerden/add-apt-repository.git /usr/local/share/add-apt-repository"
  , "RUN chmod ugo+rx /usr/local/share/add-apt-repository/add-apt-repository"
  , "RUN ln -s /usr/local/share/add-apt-repository/add-apt-repository /usr/local/bin/add-apt-repository"
  , "RUN apt-get -y update"
  , "RUN apt-get -y install curl"
  , "RUN apt-get -y install locales"
  , "RUN apt-get -y install man"
  , "RUN apt-get -y install python3"
  , "RUN apt-get -y install sqlite3"
  , "RUN apt-get -y install sudo"
  , "RUN apt -y autoremove"
  , ""
  , "FROM base AS package-install"
  , ""
  , "# Shells"
  , "#RUN apt-get -y install bash"
  , "RUN apt-get -y install fish"
  , "#RUN apt-get -y install tcsh"
  , "#RUN apt-get -y install zsh"
  , ""
  , "# System support"
  , "#RUN apt-get -y install sshfs"
  , "#RUN apt-get -y install stow"
  , "#RUN apt-get -y install unzip"
  , ""
  , "# Utilties"
  , "#RUN apt-get -y install bat"
  , "#RUN apt-get -y install exa"
  , "#RUN apt-get -y install jq"
  , "#RUN apt-get -y install ripgrep"
  , ""
  , "# Clean up"
  , "RUN apt -y autoremove"
  , ""
  , "FROM package-install AS user-setup"
  , ""
  , "# Handy if you want to support X windows apps within the DS environment"
  , "#RUN ln -s /home/${user}/host/home/${user}/.Xauthority /home/${user}/.Xauthority"
  , ""
  , "# Set up a user and switch to that user for the remaining commands"
  , "RUN useradd -u ${uid} -ms /usr/bin/fish ${user}"
  , "RUN adduser ${user} sudo"
  , "RUN echo \x27ALL            ALL = (ALL) NOPASSWD: ALL\x27 >> /etc/sudoers"
  , ""
  , "# Set up environment"
  , "ENV LANGUAGE=\"en_US.UTF-8\""
  , "ENV LC_ALL=\"en_US.UTF-8\""
  , "ENV LC_CTYPE=\"en_US.UTF-8\""
  , "ENV LANG=\"en_US.UTF-8\""
  , "RUN locale-gen en_US.UTF-8"
  , "RUN dpkg-reconfigure locales"
  , "ENV SSH_AUTH_SOCK=${SSH_AUTH_SOCK}"
  , ""
  , "FROM user-setup AS python-setup"
  , ""
  , "RUN mkdir -p /usr/local/share/python-pip"
  , "RUN curl -Lo /usr/local/share/python-pip/get-pip.py https://bootstrap.pypa.io/get-pip.py"
  , "RUN python3 /usr/local/share/python-pip/get-pip.py"
  , ""
  , "RUN pip install --upgrade pip rich-cli termsql ipython"
  , ""
  , "FROM python-setup AS user-shell"
  , ""
  , "WORKDIR ${workdir}"
  , "CMD [\"fish\"]"
  , "" ]

/-- The fixed Dockerfile template text, exactly as written to disk. -/
def dockerfile_template : String :=
  String.intercalate "\n" dockerfile_template_lines

/-- Model of the state change of `createDockerfile` (ds.py lines 61-154):
unlink the path if present (no error when absent), then write the fixed
template.  The net effect on the file map is an overwrite.  The
`script_mode` keyword of the source function is accepted and never read,
exactly as in the source. -/
def createDockerfile (fs : Fs) (dockerfile_path : DsPath)
    (script_mode : Bool) : Fs :=
  fun q => if q = dockerfile_path then some dockerfile_template else fs q

/-- The externally visible effects of `createDockerfile`, in order:
`Path.unlink(missing_ok=True)` then the template write. -/
def createDockerfileEffsList (dockerfile_path : DsPath) : List (DsPath × Option String) :=
  [(dockerfile_path, none), (dockerfile_path, some dockerfile_template)]

/-- One recorded external effect of the tool. -/
inductive Eff where
  /-- A `print(...)` to standard output. -/
  | print (line : String)
  /-- An `os.chdir(...)`. -/
  | chdir (p : DsPath)
  /-- A `Path.unlink(missing_ok=True)`. -/
  | unlink (p : DsPath)
  /-- A write of `content` to the file at `p`. -/
  | writeFile (p : DsPath) (content : String)
  /-- A `subprocess.Popen` spawn-and-wait of `cmd` (output suppressed when
  `quiet`). -/
  | spawn (cmd : List String) (quiet : Bool)
  /-- An `os.execlp(*cmd)` process replacement: `cmd.head` is the program,
  `cmd.tail` its argv. -/
  | execReplace (cmd : List String)
deriving DecidableEq, Repr

/-- How control leaves `cli`. -/
inductive Outcome where
  /-- Normal return. -/
  | finished
  /-- An uncaught `CalledProcessError(returncode, args)` raised by
  `runCommand`. -/
  | calledProcessError (returncode : Int) (args : List String)
  /-- The process image was replaced by `os.execlp`; `cli` never returns. -/
  | replaced (cmd : List String)
  /-- An uncaught error from the git query inside `getRoot`. -/
  | gitError (code : Nat)
  /-- An uncaught `ValueError` raised by `shlex.split` (ds.py line 263) on a
  command whose space-join has unbalanced quoting or a trailing escape. -/
  | valueError
deriving DecidableEq, Repr

/-- The CLI inputs of `cli`, in the order of its click-decorated signature.
`dockerfile` and `dsrc` are accepted by the source but never read. -/
structure CliArgs where
  dry_run : Bool
  verbose : Nat
  quiet : Nat
  init : Bool
  command : List String
  dockerfile : Option String
  dsrc : Option String
  work_directory : Option DsPath
  script_mode : Bool

/-- The ambient environment `cli` queries: home directory, uid, login name,
the git-query behaviour, and the exit statuses external commands would
return when spawned. -/
structure CliEnv where
  home : DsPath
  uid : Nat
  user : String
  gitQ : GitQueryResult
  exitCode : List String → Int

/-- The observable result of an invocation of `cli`. -/
structure CliResult where
  trace : List Eff
  fsOut : Fs
  cwdOut : DsPath
  outcome : Outcome

/-- The logging level of the invocation: `logging.WARN` (30) minus 10 per
`-v`, plus 10 per `-q` (ds.py line 222). -/
def loggingLevel (args : CliArgs) : Int :=
  30 - 10 * (args.verbose : Int) + 10 * (args.quiet : Int)

/-- The token-separating whitespace of Python's `shlex`
(`shlex.whitespace = " \t\r\n"`). -/
def isShlexWhitespace (c : Char) : Bool :=
  c = ' ' || c = '\t' || c = '\r' || c = '\n'

/-- The scanner state of `shlex.read_token` in POSIX mode: outside quotes,
inside single quotes, inside double quotes, or just after an escaping
backslash (from outside quotes or from inside double quotes). -/
inductive SxMode where
  | norm
  | sq
  | dq
  | escNorm
  | escDq

/-- The POSIX-mode scanner of `shlex.split` (`whitespace_split=True`,
`comments=False`), one character per step.  `inWord` records that the
current token has started (characters appended or a quote entered), so an
empty quoted token is still emitted; `tok` is the current token reversed
and `acc` the emitted tokens reversed.  `none` models the `ValueError`
raised on an unterminated quote ("No closing quotation") or a trailing
escape ("No escaped character").  Inside single quotes everything is
literal; inside double quotes a backslash escapes only `"` and `\`
(otherwise the backslash is kept); outside quotes a backslash makes the
next character literal. -/
def shlexAux : SxMode → List Char → Bool → List Char → List String →
    Option (List String)
  | .norm, [], inWord, tok, acc =>
    some ((if inWord then String.mk tok.reverse :: acc else acc).reverse)
  | .sq, [], _, _, _ => none
  | .dq, [], _, _, _ => none
  | .escNorm, [], _, _, _ => none
  | .escDq, [], _, _, _ => none
  | .norm, c :: cs, inWord, tok, acc =>
    if isShlexWhitespace c then
      (if inWord then shlexAux .norm cs false [] (String.mk tok.reverse :: acc)
        else shlexAux .norm cs false [] acc)
    else if c = '\'' then shlexAux .sq cs true tok acc
    else if c = '"' then shlexAux .dq cs true tok acc
    else if c = '\\' then shlexAux .escNorm cs true tok acc
    else shlexAux .norm cs true (c :: tok) acc
  | .escNorm, c :: cs, _, tok, acc => shlexAux .norm cs true (c :: tok) acc
  | .sq, c :: cs, inWord, tok, acc =>
    if c = '\'' then shlexAux .norm cs inWord tok acc
    else shlexAux .sq cs inWord (c :: tok) acc
  | .dq, c :: cs, inWord, tok, acc =>
    if c = '"' then shlexAux .norm cs inWord tok acc
    else if c = '\\' then shlexAux .escDq cs inWord tok acc
    else shlexAux .dq cs inWord (c :: tok) acc
  | .escDq, c :: cs, inWord, tok, acc =>
    if c = '"' || c = '\\' then shlexAux .dq cs inWord (c :: tok) acc
    else shlexAux .dq cs inWord (c :: '\\' :: tok) acc

/-- Model of Python's `shlex.split` (POSIX mode): the token list on success,
`none` for the `ValueError` raised on unbalanced quoting or a trailing
escape. -/
def shlexSplit (s : String) : Option (List String) :=
  shlexAux .norm s.data false [] []

/-- The build invocation constructed at ds.py lines 266-281: buildx build in
the current directory (`.`) tagging `dockershell:latest`, with the four
`--build-arg` pairs formatted from the resolved parameters. -/
def dsBuildCmd (user : String) (uid : Nat) (root work_directory : DsPath) :
    List String :=
  [ "docker", "buildx", "build", ".", "-t", "dockershell:latest"
  , "--build-arg", "USER=" ++ user
  , "--build-arg", "UID=" ++ toString uid
  , "--build-arg", "ROOTDIR=" ++ renderPath root
  , "--build-arg", "WORKDIR=" ++ renderPath work_directory ]

/-- The run invocation constructed at ds.py lines 287-303 (the leading
duplicated "docker" is the `os.execlp` file/argv0 pair): mount home onto
itself, mount `.` (the current directory) onto the work directory, request
a tty, auto-remove, set workdir and user, target `dockershell:latest`, and
append the (re-split) command tokens. -/
def dsRunCmd (home : DsPath) (user : String) (work_directory : DsPath)
    (commandToks : List String) : List String :=
  [ "docker", "docker", "run"
  , "-v", renderPath home ++ ":" ++ renderPath home
  , "-v", ".:" ++ renderPath work_directory
  , "-it", "--rm"
  , "--workdir", renderPath work_directory
  , "-u", user
  , "dockershell:latest" ] ++ commandToks

/-- Model of `runCommand` (ds.py lines 157-179): in script mode, print a
shebang line and the space-joined command; otherwise either replace the
process image (`exec_mode`) or spawn and wait, raising
`CalledProcessError` on a non-zero exit status.  The second component is
`some o` exactly when control does not continue past the call. -/
def runCommand (exitF : List String → Int) (cmd : List String)
    (quiet exec_mode script_mode : Bool) : List Eff × Option Outcome :=
  if script_mode then
    ([Eff.print "#!/bin/bash", Eff.print (String.intercalate " " cmd)], none)
  else if exec_mode then
    ([Eff.execReplace cmd], some (Outcome.replaced cmd))
  else
    ([Eff.spawn cmd quiet],
      if exitF cmd = 0 then none
      else some (Outcome.calledProcessError (exitF cmd) cmd))

/-- The work of `cli` once the build root is known (ds.py lines 230-306):
compute the Dockerfile path, uid, user and the work directory; if
`--init` and not dry-run, overwrite the Dockerfile; if the Dockerfile now
exists and not dry-run, re-split the command, chdir to the Dockerfile's
parent, dispatch the build step, chdir to the work directory, and
dispatch the run step in exec mode. -/
def cliWithRoot (env : CliEnv) (args : CliArgs) (fs : Fs) (cwd : DsPath)
    (root : DsPath) : CliResult :=
    let command := String.intercalate " " args.command
    let dockerfile_path := getDockerfile fs root cwd
    let work_directory := args.work_directory.getD cwd
    let doInit := args.init && !args.dry_run
    let fs1 := if doInit then createDockerfile fs dockerfile_path args.script_mode else fs
    let initEffs := if doInit then
        [Eff.unlink dockerfile_path, Eff.writeFile dockerfile_path dockerfile_template]
      else []
    if (fs1 dockerfile_path).isSome then
      if args.dry_run then ⟨initEffs, fs1, cwd, .finished⟩
      else
        match (if command = "" then some [] else shlexSplit command) with
        | none => ⟨initEffs, fs1, cwd, .valueError⟩
        | some commandToks =>
        let quietFlag := decide (loggingLevel args > 20)
        let buildCmd := dsBuildCmd env.user env.uid root work_directory
        let buildStep := runCommand env.exitCode buildCmd quietFlag false args.script_mode
        match buildStep.2 with
        | some o =>
          ⟨initEffs ++ Eff.chdir (parentDir dockerfile_path) :: buildStep.1,
            fs1, parentDir dockerfile_path, o⟩
        | none =>
          let runCmd := dsRunCmd env.home env.user work_directory commandToks
          let runStep := runCommand env.exitCode runCmd quietFlag true args.script_mode
          ⟨initEffs ++ Eff.chdir (parentDir dockerfile_path) :: buildStep.1
              ++ Eff.chdir work_directory :: runStep.1,
            fs1, work_directory, runStep.2.getD Outcome.finished⟩
    else ⟨initEffs, fs1, cwd, .finished⟩

/-- Model of `cli` (ds.py lines 196-306): query the build root (git failures
other than the recognized exit-128 propagate and abort the run), then
proceed with `cliWithRoot`. -/
def cli (env : CliEnv) (args : CliArgs) (fs : Fs) (cwd : DsPath) : CliResult :=
  match getRoot cwd env.gitQ with
  | .error e => ⟨[], fs, cwd, .gitError e⟩
  | .ok root => cliWithRoot env args fs cwd root

/-- The re-splitting `cli` applies to the command tokens (ds.py lines 227 and
263): join with single spaces, then `shlex.split` unless the join is
empty (an empty string stays a falsy empty token sequence); `none` is the
`ValueError` that `shlex.split` raises on unbalanced quoting. -/
def retokenize (cmdToks : List String) : Option (List String) :=
  if String.intercalate " " cmdToks = "" then some []
  else shlexSplit (String.intercalate " " cmdToks)

/-- The quiet flag passed to both `runCommand` calls (ds.py lines 282 and
304): verbosity below `logging.INFO` (20). -/
def quietOf (v q : Nat) : Bool :=
  decide ((30 : Int) - 10 * (v : Int) + 10 * (q : Int) > 20)

/-- The complete standard output of an invocation: the printed lines of its
trace, in order (logging goes to standard error and is not part of it). -/
def stdoutOf (tr : List Eff) : List String :=
  tr.filterMap (fun e => match e with | Eff.print s => some s | _ => none)

/-- Normal-mode behaviour of `cliWithRoot` when the definition file exists
after the init step, the joined command re-splits successfully, and the
build step exits zero: init effects, chdir to the Dockerfile's parent,
the build spawn, chdir to the work directory, then the process-replacing
run dispatch, which never returns. -/
theorem cliWithRoot_normal_exec (env : CliEnv) (v q : Nat) (i : Bool)
    (cmdToks toks : List String) (dfo dso : Option String) (wdo : Option DsPath)
    (fs : Fs) (cwd root : DsPath)
    (hToks : retokenize cmdToks = some toks)
    (hEx : ((if i then createDockerfile fs (getDockerfile fs root cwd) false else fs)
        (getDockerfile fs root cwd)).isSome = true)
    (hOk : env.exitCode (dsBuildCmd env.user env.uid root (wdo.getD cwd)) = 0) :
    cliWithRoot env ⟨false, v, q, i, cmdToks, dfo, dso, wdo, false⟩ fs cwd root =
      ⟨(if i then [Eff.unlink (getDockerfile fs root cwd),
            Eff.writeFile (getDockerfile fs root cwd) dockerfile_template]
          else [])
        ++ [Eff.chdir (parentDir (getDockerfile fs root cwd)),
            Eff.spawn (dsBuildCmd env.user env.uid root (wdo.getD cwd)) (quietOf v q),
            Eff.chdir (wdo.getD cwd),
            Eff.execReplace (dsRunCmd env.home env.user (wdo.getD cwd) toks)],
        (if i then createDockerfile fs (getDockerfile fs root cwd) false else fs),
        wdo.getD cwd,
        .replaced (dsRunCmd env.home env.user (wdo.getD cwd) toks)⟩ := by
  have hT : (if String.intercalate " " cmdToks = "" then some []
      else shlexSplit (String.intercalate " " cmdToks)) = some toks := by
    simpa [retokenize] using hToks
  simp only [cliWithRoot, runCommand, quietOf, loggingLevel,
    Bool.not_false, Bool.and_true, hEx, hT, hOk]
  simp

/-- Normal-mode behaviour of `cliWithRoot` when the definition file exists
after the init step, the joined command re-splits successfully, and the
build step exits non-zero: the `CalledProcessError` carries the exit
status and the build command, and the run step is never reached. -/
theorem cliWithRoot_build_failure (env : CliEnv) (v q : Nat) (i : Bool)
    (cmdToks toks : List String) (dfo dso : Option String) (wdo : Option DsPath)
    (fs : Fs) (cwd root : DsPath)
    (hToks : retokenize cmdToks = some toks)
    (hEx : ((if i then createDockerfile fs (getDockerfile fs root cwd) false else fs)
        (getDockerfile fs root cwd)).isSome = true)
    (hFail : env.exitCode (dsBuildCmd env.user env.uid root (wdo.getD cwd)) ≠ 0) :
    cliWithRoot env ⟨false, v, q, i, cmdToks, dfo, dso, wdo, false⟩ fs cwd root =
      ⟨(if i then [Eff.unlink (getDockerfile fs root cwd),
            Eff.writeFile (getDockerfile fs root cwd) dockerfile_template]
          else [])
        ++ [Eff.chdir (parentDir (getDockerfile fs root cwd)),
            Eff.spawn (dsBuildCmd env.user env.uid root (wdo.getD cwd)) (quietOf v q)],
        (if i then createDockerfile fs (getDockerfile fs root cwd) false else fs),
        parentDir (getDockerfile fs root cwd),
        .calledProcessError
          (env.exitCode (dsBuildCmd env.user env.uid root (wdo.getD cwd)))
          (dsBuildCmd env.user env.uid root (wdo.getD cwd))⟩ := by
  have hT : (if String.intercalate " " cmdToks = "" then some []
      else shlexSplit (String.intercalate " " cmdToks)) = some toks := by
    simpa [retokenize] using hToks
  simp only [cliWithRoot, runCommand, quietOf, loggingLevel,
    Bool.not_false, Bool.and_true, hEx, hT, if_neg hFail]
  simp

/-- Script-mode behaviour of `cliWithRoot` when the definition file exists
after the init step and the joined command re-splits successfully: init
effects, then the two chdirs interleaved with a shebang line and a
space-joined command line per would-be invocation; nothing is spawned and
nothing replaces the process. -/
theorem cliWithRoot_script (env : CliEnv) (v q : Nat) (i : Bool)
    (cmdToks toks : List String) (dfo dso : Option String) (wdo : Option DsPath)
    (fs : Fs) (cwd root : DsPath)
    (hToks : retokenize cmdToks = some toks)
    (hEx : ((if i then createDockerfile fs (getDockerfile fs root cwd) true else fs)
        (getDockerfile fs root cwd)).isSome = true) :
    cliWithRoot env ⟨false, v, q, i, cmdToks, dfo, dso, wdo, true⟩ fs cwd root =
      ⟨(if i then [Eff.unlink (getDockerfile fs root cwd),
            Eff.writeFile (getDockerfile fs root cwd) dockerfile_template]
          else [])
        ++ [Eff.chdir (parentDir (getDockerfile fs root cwd)),
            Eff.print "#!/bin/bash",
            Eff.print (String.intercalate " "
              (dsBuildCmd env.user env.uid root (wdo.getD cwd))),
            Eff.chdir (wdo.getD cwd),
            Eff.print "#!/bin/bash",
            Eff.print (String.intercalate " "
              (dsRunCmd env.home env.user (wdo.getD cwd) toks))],
        (if i then createDockerfile fs (getDockerfile fs root cwd) true else fs),
        wdo.getD cwd,
        .finished⟩ := by
  have hT : (if String.intercalate " " cmdToks = "" then some []
      else shlexSplit (String.intercalate " " cmdToks)) = some toks := by
    simpa [retokenize] using hToks
  simp only [cliWithRoot, runCommand, quietOf, loggingLevel,
    Bool.not_false, Bool.and_true, hEx, hT]
  simp

/-- Behaviour of `cliWithRoot` (any script-mode setting) when the definition
file exists after the init step but `shlex.split` raises on the joined
command: the `ValueError` propagates right after the init effects —
before the chdir, the build step, and any script output. -/
theorem cliWithRoot_shlex_failure (env : CliEnv) (v q : Nat) (i sm : Bool)
    (cmdToks : List String) (dfo dso : Option String) (wdo : Option DsPath)
    (fs : Fs) (cwd root : DsPath)
    (hBad : retokenize cmdToks = none)
    (hEx : ((if i then createDockerfile fs (getDockerfile fs root cwd) sm else fs)
        (getDockerfile fs root cwd)).isSome = true) :
    cliWithRoot env ⟨false, v, q, i, cmdToks, dfo, dso, wdo, sm⟩ fs cwd root =
      ⟨(if i then [Eff.unlink (getDockerfile fs root cwd),
            Eff.writeFile (getDockerfile fs root cwd) dockerfile_template]
          else []),
        (if i then createDockerfile fs (getDockerfile fs root cwd) sm else fs),
        cwd,
        .valueError⟩ := by
  have hT : (if String.intercalate " " cmdToks = "" then some []
      else shlexSplit (String.intercalate " " cmdToks)) = none := by
    simpa [retokenize] using hBad
  simp only [cliWithRoot, Bool.not_false, Bool.and_true, hEx, hT]
  simp

/-- The result of the `getDockerfile` loop over an ancestor list containing
the root: the first existing candidate among the ancestors up to and
including the root, else the root's candidate. -/
theorem searchChain_eq_of_mem (fs : Fs) (root : DsPath) :
    ∀ l : List DsPath, root ∈ l →
      searchChain fs root l =
        (match (upToRoot root l).find?
            (fun p => (fs (p ++ [dockerfileName])).isSome) with
          | some p => p ++ [dockerfileName]
          | none => root ++ [dockerfileName])
  | [], h => absurd h (List.not_mem_nil root)
  | p :: rest, h => by
    by_cases hf : (fs (p ++ [dockerfileName])).isSome
    · by_cases hr : p = root
      · subst hr
        simp [searchChain, upToRoot, hf]
      · simp [searchChain, upToRoot, hf, hr]
    · by_cases hr : p = root
      · subst hr
        simp [searchChain, upToRoot, hf]
      · have hm : root ∈ rest := by
          rcases List.mem_cons.mp h with h1 | h2
          · exact absurd h1.symm hr
          · exact h2
        simp [searchChain, upToRoot, hf, hr,
          searchChain_eq_of_mem fs root rest hm]

/-- The result of the `getDockerfile` loop over an ancestor list that never
reaches the root: the first existing candidate anywhere on the list, else
the root's candidate. -/
theorem searchChain_eq_of_not_mem (fs : Fs) (root : DsPath) :
    ∀ l : List DsPath, root ∉ l →
      searchChain fs root l =
        (match l.find? (fun p => (fs (p ++ [dockerfileName])).isSome) with
          | some p => p ++ [dockerfileName]
          | none => root ++ [dockerfileName])
  | [], _ => by simp [searchChain]
  | p :: rest, h => by
    have hr : p ≠ root := fun hpr => h (hpr ▸ List.mem_cons_self p rest)
    have hm : root ∉ rest := fun hin => h (List.mem_cons_of_mem p hin)
    by_cases hf : (fs (p ++ [dockerfileName])).isSome
    · simp [searchChain, hf]
    · simp [searchChain, hf, hr, searchChain_eq_of_not_mem fs root rest hm]

/-- Claim C4: for every current directory lying inside the build root's
directory tree, `getDockerfile` returns the nearest ancestor's existing
definition file, searching from the current directory inclusive upward and
stopping at the root; if no existing file is found up to and including the
root, it returns the root's default candidate path (which need not
exist).  The right-hand side `specLocateDefinitionFile` is modelled from
the spec's words. -/
theorem c4_locate_definition_file (fs : Fs) (root cwd : DsPath)
    (h : root ∈ chain cwd) :
    getDockerfile fs root cwd = specLocateDefinitionFile fs root cwd := by
  unfold getDockerfile specLocateDefinitionFile
  exact searchChain_eq_of_mem fs root (chain cwd) h

/-- Witness for C4 at a concrete configuration: the current directory
`/proj/sub` lies under the root `/proj`, whose `Dockerfile` exists. -/
theorem c4_locate_definition_file_witness :
    (["proj"] : DsPath) ∈ chain ["proj", "sub"] ∧
      getDockerfile
          (fun p => if p = ["proj", "Dockerfile"] then some "FROM scratch" else none)
          ["proj"] ["proj", "sub"] =
        specLocateDefinitionFile
          (fun p => if p = ["proj", "Dockerfile"] then some "FROM scratch" else none)
          ["proj"] ["proj", "sub"] :=
  ⟨by decide,
    c4_locate_definition_file
      (fun p => if p = ["proj", "Dockerfile"] then some "FROM scratch" else none)
      ["proj"] ["proj", "sub"] (by decide)⟩

/-- Counterexample to claim C9 as stated: with the build root `/x` not an
ancestor of the current directory `/a/b` and an existing `/a/Dockerfile`,
the walk returns `/a/Dockerfile`, not the root's default candidate
`/x/Dockerfile`. -/
theorem c9_counterexample :
    (["x"] : DsPath) ∉ chain ["a", "b"] ∧
      getDockerfile
          (fun p => if p = ["a", "Dockerfile"] then some "FROM scratch" else none)
          ["x"] ["a", "b"] = ["a", "Dockerfile"] ∧
      (["a", "Dockerfile"] : DsPath) ≠ ["x", "Dockerfile"] := by
  refine ⟨by decide, by decide, by decide⟩

/-- Claim C9 as amended: for every current directory that is not inside the
build root's ancestor chain, `getDockerfile` still terminates (it is a
total function over the finite ancestor chain, which ends at the
filesystem root) and returns the first existing definition file found on
the upward walk from the current directory to the filesystem root, falling
back to the root's default candidate path when no such file exists on the
whole walk. -/
theorem c9_amended_unbounded_walk (fs : Fs) (root cwd : DsPath)
    (h : root ∉ chain cwd) :
    getDockerfile fs root cwd =
      (match (chain cwd).find? (fun p => (fs (p ++ [dockerfileName])).isSome) with
        | some p => p ++ [dockerfileName]
        | none => root ++ [dockerfileName]) := by
  unfold getDockerfile
  exact searchChain_eq_of_not_mem fs root (chain cwd) h

/-- Witness for the amended C9 at a concrete configuration: root `/x`, current
directory `/a/b`, no definition file anywhere, result `/x/Dockerfile`. -/
theorem c9_amended_unbounded_walk_witness :
    (["x"] : DsPath) ∉ chain ["a", "b"] ∧
      getDockerfile (fun _ => none) ["x"] ["a", "b"] =
        (match (chain ["a", "b"]).find?
            (fun p => ((fun _ => (none : Option String)) (p ++ [dockerfileName])).isSome) with
          | some p => p ++ [dockerfileName]
          | none => ["x"] ++ [dockerfileName]) :=
  ⟨by decide, c9_amended_unbounded_walk (fun _ => none) ["x"] ["a", "b"] (by decide)⟩

/-- Claim C5: `getRoot` returns the canonicalized version-control top-level
directory when the git query succeeds, falls back to the current working
directory on the recognized exit-128 "not a repository" failure, and lets
any other failure of the query propagate to the caller as an error. -/
theorem c5_root_locator (cwd : DsPath) (out : String) (e : Nat) :
    getRoot cwd (.output out) = .ok (resolvePath (pathOfString (strTrim out))) ∧
      getRoot cwd .errorReturnCode128 = .ok cwd ∧
      getRoot cwd (.otherError e) = .error e :=
  ⟨rfl, rfl, rfl⟩

/-- Claim C6: `createDockerfile` leaves the target file containing exactly the
fixed template text — with the four placeholder tokens intact — regardless
of whether the path existed before and of what it held; the result does
not depend on the prior filesystem at all (no merging).  The model's
filesystem cannot fail a write; the claim's parent-exists-and-writable
proviso is therefore vacuous here. -/
theorem c6_generator_overwrite (fs fs2 : Fs) (p : DsPath) (sm sm2 : Bool) :
    createDockerfile fs p sm p = some dockerfile_template ∧
      createDockerfile fs p sm p = createDockerfile fs2 p sm2 p ∧
      "ENV user=${USER}" ∈ dockerfile_template_lines ∧
      "ENV uid=${UID}" ∈ dockerfile_template_lines ∧
      "ENV rootdir=${ROOTDIR}" ∈ dockerfile_template_lines ∧
      "ENV workdir=${WORKDIR}" ∈ dockerfile_template_lines := by
  refine ⟨by simp [createDockerfile], by simp [createDockerfile], ?_, ?_, ?_, ?_⟩
  all_goals decide

/-- A demonstration filesystem: exactly one file, `/proj/Dockerfile`. -/
def demoFs : Fs :=
  fun p => if p = ["proj", "Dockerfile"] then some "FROM scratch" else none

/-- The demonstration build root `/proj`, as the git query reports it. -/
def demoRoot : DsPath := rootOf "/proj\n"

/-- The demonstration current directory `/proj/sub`. -/
def demoCwd : DsPath := ["proj", "sub"]

/-- The definition file discovered in the demonstration configuration. -/
def demoDf : DsPath := getDockerfile demoFs demoRoot demoCwd

/-- The demonstration home directory `/home/alice`. -/
def demoHome : DsPath := ["home", "alice"]

/-- Counterexample to claim C1 as stated: the run invocation does not append
the user-supplied command tokens verbatim.  With the single command token
"a  b" (one argv entry containing spaces), the tokens appended to the
dispatched run command are "a" and "b" — the tool joins the tokens with
single spaces and re-splits the result with `shlex.split`. -/
theorem c1_counterexample :
    (cli ⟨demoHome, 1000, "alice", .output "/proj\n", fun _ => 0⟩
          ⟨false, 0, 0, false, ["a  b"], none, none, none, false⟩
          demoFs demoCwd).outcome
        = .replaced (dsRunCmd demoHome "alice" demoCwd ["a", "b"]) ∧
      dsRunCmd demoHome "alice" demoCwd ["a", "b"]
        ≠ dsRunCmd demoHome "alice" demoCwd ["a  b"] := by
  exact ⟨by decide, by decide⟩

/-- Claim C1 as amended: in normal mode, when the definition file exists
(after the init step) and the build step succeeds, and the space-joined
command re-parses successfully under POSIX shell word-splitting
(`retokenize`, the `shlex.split` of the join; the result is the original
tokens whenever each is nonempty and free of whitespace, quote and
backslash characters, and empty when the command is empty), the
dispatched run invocation mounts the home directory onto itself
(`-v home:home`), mounts the current directory — which the tool has just
changed to the resolved work directory — onto the work directory
(`-v .:work` directly after `Eff.chdir work`), requests an interactive
pseudo-terminal (`-it`), auto-removes the container (`--rm`), sets the
container working directory (`--workdir work`) and user identity
(`-u user`) to the host's, targets the fixed tag `dockershell:latest`,
and appends the re-parsed tokens; it is dispatched by replacing the
calling process image (`Eff.execReplace`, outcome `.replaced`, never
returning on success) rather than spawning a child and waiting.  When the
re-parse fails (unbalanced quoting after the join), the tool instead
raises a `ValueError` and nothing ever replaces the process. -/
theorem c1_amended_run_invocation (home : DsPath) (uid : Nat) (user s : String)
    (exitF : List String → Int) (v q : Nat) (i : Bool) (cmdToks : List String)
    (dfo dso : Option String) (wdo : Option DsPath) (fs : Fs) (cwd : DsPath)
    (hEx : ((if i then createDockerfile fs (getDockerfile fs (rootOf s) cwd) false else fs)
        (getDockerfile fs (rootOf s) cwd)).isSome = true)
    (hOk : exitF (dsBuildCmd user uid (rootOf s) (wdo.getD cwd)) = 0) :
    (∀ toks, retokenize cmdToks = some toks →
      (cli ⟨home, uid, user, .output s, exitF⟩
            ⟨false, v, q, i, cmdToks, dfo, dso, wdo, false⟩ fs cwd).trace
          = (if i then [Eff.unlink (getDockerfile fs (rootOf s) cwd),
                Eff.writeFile (getDockerfile fs (rootOf s) cwd) dockerfile_template]
              else [])
            ++ [Eff.chdir (parentDir (getDockerfile fs (rootOf s) cwd)),
                Eff.spawn (dsBuildCmd user uid (rootOf s) (wdo.getD cwd)) (quietOf v q),
                Eff.chdir (wdo.getD cwd),
                Eff.execReplace (dsRunCmd home user (wdo.getD cwd) toks)] ∧
        (cli ⟨home, uid, user, .output s, exitF⟩
            ⟨false, v, q, i, cmdToks, dfo, dso, wdo, false⟩ fs cwd).outcome
          = .replaced (dsRunCmd home user (wdo.getD cwd) toks)) ∧
    (retokenize cmdToks = none →
      (cli ⟨home, uid, user, .output s, exitF⟩
          ⟨false, v, q, i, cmdToks, dfo, dso, wdo, false⟩ fs cwd).outcome
        = .valueError ∧
      ∀ c, Eff.execReplace c ∉ (cli ⟨home, uid, user, .output s, exitF⟩
          ⟨false, v, q, i, cmdToks, dfo, dso, wdo, false⟩ fs cwd).trace) := by
  have hc : cli ⟨home, uid, user, .output s, exitF⟩
      ⟨false, v, q, i, cmdToks, dfo, dso, wdo, false⟩ fs cwd
      = cliWithRoot ⟨home, uid, user, .output s, exitF⟩
        ⟨false, v, q, i, cmdToks, dfo, dso, wdo, false⟩ fs cwd (rootOf s) := rfl
  constructor
  · intro toks hToks
    rw [hc, cliWithRoot_normal_exec _ v q i cmdToks toks dfo dso wdo fs cwd (rootOf s)
      hToks hEx hOk]
    exact ⟨rfl, rfl⟩
  · intro hBad
    rw [hc, cliWithRoot_shlex_failure _ v q i false cmdToks dfo dso wdo fs cwd (rootOf s)
      hBad hEx]
    refine ⟨rfl, ?_⟩
    cases i <;> simp

/-- Witness for the amended C1 at the demonstration configuration, with
command tokens "echo" and "hi" (re-split to themselves). -/
theorem c1_amended_run_invocation_witness :
    ((if false then createDockerfile demoFs demoDf false else demoFs) demoDf).isSome = true ∧
      retokenize ["echo", "hi"] = some ["echo", "hi"] ∧
      ((cli ⟨demoHome, 1000, "alice", .output "/proj\n", fun _ => 0⟩
            ⟨false, 0, 0, false, ["echo", "hi"], none, none, none, false⟩
            demoFs demoCwd).trace
          = (if false then [Eff.unlink demoDf, Eff.writeFile demoDf dockerfile_template]
              else [])
            ++ [Eff.chdir (parentDir demoDf),
                Eff.spawn (dsBuildCmd "alice" 1000 demoRoot demoCwd) (quietOf 0 0),
                Eff.chdir demoCwd,
                Eff.execReplace (dsRunCmd demoHome "alice" demoCwd ["echo", "hi"])] ∧
        (cli ⟨demoHome, 1000, "alice", .output "/proj\n", fun _ => 0⟩
            ⟨false, 0, 0, false, ["echo", "hi"], none, none, none, false⟩
            demoFs demoCwd).outcome
          = .replaced (dsRunCmd demoHome "alice" demoCwd ["echo", "hi"])) :=
  ⟨by decide, by decide,
    (c1_amended_run_invocation demoHome 1000 "alice" "/proj\n" (fun _ => 0) 0 0 false
        ["echo", "hi"] none none none demoFs demoCwd (by decide) rfl).1
      ["echo", "hi"] (by decide)⟩

/-- Counterexample to claim C2 as stated: for the invocation whose single
command token is an unbalanced double quote followed by "a", the program
raises a `ValueError` inside `shlex.split` (ds.py line 263) before the
chdir and the build step, so no build invocation is run at all — the
whole effect trace is empty. -/
theorem c2_counterexample :
    (cli ⟨demoHome, 1000, "alice", .output "/proj\n", fun _ => 0⟩
          ⟨false, 0, 0, false, ["\"a"], none, none, none, false⟩
          demoFs demoCwd).trace = [] ∧
      (cli ⟨demoHome, 1000, "alice", .output "/proj\n", fun _ => 0⟩
          ⟨false, 0, 0, false, ["\"a"], none, none, none, false⟩
          demoFs demoCwd).outcome = .valueError :=
  ⟨by decide, by decide⟩

/-- Claim C2 as amended: in normal mode, whenever the space-joined command
re-parses successfully under POSIX shell word-splitting, the build
invocation uses the definition file's parent directory as build context
(the context argument is `.`, and the trace shows `Eff.chdir` to the
Dockerfile's parent immediately before the build spawn), targets the
fixed tag `dockershell:latest`, and contains the four build-argument
pairs `USER=`, `UID=`, `ROOTDIR=`, `WORKDIR=` verbatim; the current
directory is then restored to the work directory (`Eff.chdir`) before the
run step (`rest`).  When the re-parse fails, the tool raises a
`ValueError` before the build step and no command is ever spawned. -/
theorem c2_build_invocation (home : DsPath) (uid : Nat) (user s : String)
    (exitF : List String → Int) (v q : Nat) (i : Bool) (cmdToks : List String)
    (dfo dso : Option String) (wdo : Option DsPath) (fs : Fs) (cwd : DsPath)
    (hEx : ((if i then createDockerfile fs (getDockerfile fs (rootOf s) cwd) false else fs)
        (getDockerfile fs (rootOf s) cwd)).isSome = true)
    (hOk : exitF (dsBuildCmd user uid (rootOf s) (wdo.getD cwd)) = 0) :
    (∀ toks, retokenize cmdToks = some toks →
      ∃ rest,
        (cli ⟨home, uid, user, .output s, exitF⟩
              ⟨false, v, q, i, cmdToks, dfo, dso, wdo, false⟩ fs cwd).trace
            = (if i then [Eff.unlink (getDockerfile fs (rootOf s) cwd),
                  Eff.writeFile (getDockerfile fs (rootOf s) cwd) dockerfile_template]
                else [])
              ++ [Eff.chdir (parentDir (getDockerfile fs (rootOf s) cwd)),
                  Eff.spawn (dsBuildCmd user uid (rootOf s) (wdo.getD cwd)) (quietOf v q),
                  Eff.chdir (wdo.getD cwd)] ++ rest ∧
          dsBuildCmd user uid (rootOf s) (wdo.getD cwd)
            = ["docker", "buildx", "build", ".", "-t", "dockershell:latest",
                "--build-arg", "USER=" ++ user,
                "--build-arg", "UID=" ++ toString uid,
                "--build-arg", "ROOTDIR=" ++ renderPath (rootOf s),
                "--build-arg", "WORKDIR=" ++ renderPath (wdo.getD cwd)]) ∧
    (retokenize cmdToks = none →
      (∀ c qf, Eff.spawn c qf ∉ (cli ⟨home, uid, user, .output s, exitF⟩
          ⟨false, v, q, i, cmdToks, dfo, dso, wdo, false⟩ fs cwd).trace) ∧
      (cli ⟨home, uid, user, .output s, exitF⟩
          ⟨false, v, q, i, cmdToks, dfo, dso, wdo, false⟩ fs cwd).outcome
        = .valueError) := by
  have hc : cli ⟨home, uid, user, .output s, exitF⟩
      ⟨false, v, q, i, cmdToks, dfo, dso, wdo, false⟩ fs cwd
      = cliWithRoot ⟨home, uid, user, .output s, exitF⟩
        ⟨false, v, q, i, cmdToks, dfo, dso, wdo, false⟩ fs cwd (rootOf s) := rfl
  constructor
  · intro toks hToks
    refine ⟨[Eff.execReplace (dsRunCmd home user (wdo.getD cwd) toks)], ?_, rfl⟩
    rw [hc, cliWithRoot_normal_exec _ v q i cmdToks toks dfo dso wdo fs cwd (rootOf s)
      hToks hEx hOk]
    simp
  · intro hBad
    rw [hc, cliWithRoot_shlex_failure _ v q i false cmdToks dfo dso wdo fs cwd (rootOf s)
      hBad hEx]
    refine ⟨?_, rfl⟩
    cases i <;> simp

/-- Witness for the amended C2 at the spec's own example parameters: user
alice, uid 1000, root `/proj`, work directory `/proj/sub`. -/
theorem c2_build_invocation_witness :
    ((if false then createDockerfile demoFs demoDf false else demoFs) demoDf).isSome = true ∧
      retokenize [] = some [] ∧
      ∃ rest,
        (cli ⟨demoHome, 1000, "alice", .output "/proj\n", fun _ => 0⟩
              ⟨false, 0, 0, false, [], none, none, none, false⟩
              demoFs demoCwd).trace
            = (if false then [Eff.unlink demoDf, Eff.writeFile demoDf dockerfile_template]
                else [])
              ++ [Eff.chdir (parentDir demoDf),
                  Eff.spawn (dsBuildCmd "alice" 1000 demoRoot demoCwd) (quietOf 0 0),
                  Eff.chdir demoCwd] ++ rest ∧
          dsBuildCmd "alice" 1000 demoRoot demoCwd
            = ["docker", "buildx", "build", ".", "-t", "dockershell:latest",
                "--build-arg", "USER=" ++ "alice",
                "--build-arg", "UID=" ++ toString 1000,
                "--build-arg", "ROOTDIR=" ++ renderPath demoRoot,
                "--build-arg", "WORKDIR=" ++ renderPath demoCwd] :=
  ⟨by decide, by decide,
    (c2_build_invocation demoHome 1000 "alice" "/proj\n" (fun _ => 0) 0 0 false
        [] none none none demoFs demoCwd (by decide) rfl).1 [] (by decide)⟩

/-- Counterexample to claim C3 as stated: in script mode the complete
standard output is not one shebang line followed by the two command
lines — `runCommand` prints a shebang before each command, so the output
has four lines with two shebangs. -/
theorem c3_counterexample :
    stdoutOf (cli ⟨demoHome, 1000, "alice", .output "/proj\n", fun _ => 0⟩
          ⟨false, 0, 0, false, [], none, none, none, true⟩
          demoFs demoCwd).trace
        = ["#!/bin/bash",
            String.intercalate " " (dsBuildCmd "alice" 1000 demoRoot demoCwd),
            "#!/bin/bash",
            String.intercalate " " (dsRunCmd demoHome "alice" demoCwd [])] ∧
      ["#!/bin/bash",
          String.intercalate " " (dsBuildCmd "alice" 1000 demoRoot demoCwd),
          "#!/bin/bash",
          String.intercalate " " (dsRunCmd demoHome "alice" demoCwd [])]
        ≠ ["#!/bin/bash",
            String.intercalate " " (dsBuildCmd "alice" 1000 demoRoot demoCwd),
            String.intercalate " " (dsRunCmd demoHome "alice" demoCwd [])] := by
  exact ⟨by decide, by decide⟩

/-- Claim C3 as amended: in script mode, when the definition file exists and
the space-joined command re-parses successfully under POSIX shell
word-splitting, the complete standard output is a shebang line followed
by the space-joined build command, then a second shebang line followed by
the space-joined run command (one shebang per emitted command, four lines
in all), and no external process is spawned or exec'd; when the re-parse
fails, the tool raises a `ValueError` before printing anything, and still
spawns and execs nothing. -/
theorem c3_amended_script_output (home : DsPath) (uid : Nat) (user s : String)
    (exitF : List String → Int) (v q : Nat) (i : Bool) (cmdToks : List String)
    (dfo dso : Option String) (wdo : Option DsPath) (fs : Fs) (cwd : DsPath)
    (hEx : ((if i then createDockerfile fs (getDockerfile fs (rootOf s) cwd) true else fs)
        (getDockerfile fs (rootOf s) cwd)).isSome = true) :
    (∀ toks, retokenize cmdToks = some toks →
      stdoutOf (cli ⟨home, uid, user, .output s, exitF⟩
            ⟨false, v, q, i, cmdToks, dfo, dso, wdo, true⟩ fs cwd).trace
          = ["#!/bin/bash",
              String.intercalate " " (dsBuildCmd user uid (rootOf s) (wdo.getD cwd)),
              "#!/bin/bash",
              String.intercalate " " (dsRunCmd home user (wdo.getD cwd) toks)]) ∧
    (retokenize cmdToks = none →
      stdoutOf (cli ⟨home, uid, user, .output s, exitF⟩
          ⟨false, v, q, i, cmdToks, dfo, dso, wdo, true⟩ fs cwd).trace = [] ∧
      (cli ⟨home, uid, user, .output s, exitF⟩
          ⟨false, v, q, i, cmdToks, dfo, dso, wdo, true⟩ fs cwd).outcome = .valueError) ∧
    (∀ c qf, Eff.spawn c qf ∉ (cli ⟨home, uid, user, .output s, exitF⟩
        ⟨false, v, q, i, cmdToks, dfo, dso, wdo, true⟩ fs cwd).trace) ∧
    (∀ c, Eff.execReplace c ∉ (cli ⟨home, uid, user, .output s, exitF⟩
        ⟨false, v, q, i, cmdToks, dfo, dso, wdo, true⟩ fs cwd).trace) := by
  have hc : cli ⟨home, uid, user, .output s, exitF⟩
      ⟨false, v, q, i, cmdToks, dfo, dso, wdo, true⟩ fs cwd
      = cliWithRoot ⟨home, uid, user, .output s, exitF⟩
        ⟨false, v, q, i, cmdToks, dfo, dso, wdo, true⟩ fs cwd (rootOf s) := rfl
  cases hT : retokenize cmdToks with
  | none =>
    rw [hc, cliWithRoot_shlex_failure _ v q i true cmdToks dfo dso wdo fs cwd (rootOf s)
      hT hEx]
    refine ⟨?_, fun _ => ⟨?_, rfl⟩, ?_, ?_⟩
    · intro toks hToks
      cases hToks
    all_goals cases i <;> simp [stdoutOf]
  | some toks =>
    rw [hc, cliWithRoot_script _ v q i cmdToks toks dfo dso wdo fs cwd (rootOf s) hT hEx]
    refine ⟨?_, ?_, ?_, ?_⟩
    · intro toks' hToks'
      obtain rfl : toks = toks' := by simpa using hToks'
      cases i <;> simp [stdoutOf]
    · intro hBad
      cases hBad
    all_goals cases i <;> simp [stdoutOf]

/-- Witness for the amended C3 at the demonstration configuration. -/
theorem c3_amended_script_output_witness :
    ((if false then createDockerfile demoFs demoDf true else demoFs) demoDf).isSome = true ∧
      retokenize ["echo", "hi"] = some ["echo", "hi"] ∧
      stdoutOf (cli ⟨demoHome, 1000, "alice", .output "/proj\n", fun _ => 0⟩
            ⟨false, 0, 0, false, ["echo", "hi"], none, none, none, true⟩
            demoFs demoCwd).trace
          = ["#!/bin/bash",
              String.intercalate " " (dsBuildCmd "alice" 1000 demoRoot demoCwd),
              "#!/bin/bash",
              String.intercalate " " (dsRunCmd demoHome "alice" demoCwd ["echo", "hi"])] ∧
        (∀ c qf, Eff.spawn c qf ∉ (cli ⟨demoHome, 1000, "alice", .output "/proj\n", fun _ => 0⟩
            ⟨false, 0, 0, false, ["echo", "hi"], none, none, none, true⟩
            demoFs demoCwd).trace) ∧
        (∀ c, Eff.execReplace c ∉ (cli ⟨demoHome, 1000, "alice", .output "/proj\n", fun _ => 0⟩
            ⟨false, 0, 0, false, ["echo", "hi"], none, none, none, true⟩
            demoFs demoCwd).trace) :=
  ⟨by decide, by decide,
    (c3_amended_script_output demoHome 1000 "alice" "/proj\n" (fun _ => 0) 0 0 false
        ["echo", "hi"] none none none demoFs demoCwd (by decide)).1
      ["echo", "hi"] (by decide),
    ((c3_amended_script_output demoHome 1000 "alice" "/proj\n" (fun _ => 0) 0 0 false
        ["echo", "hi"] none none none demoFs demoCwd (by decide)).2).2.1,
    ((c3_amended_script_output demoHome 1000 "alice" "/proj\n" (fun _ => 0) 0 0 false
        ["echo", "hi"] none none none demoFs demoCwd (by decide)).2).2.2⟩

/-- Claim C7: in dry-run mode, for every combination of flags, command
tokens, filesystem, environment and starting directory, the tool records
no external effect at all — in particular no spawn or exec and no unlink
or write — and the filesystem and current directory are unchanged. -/
theorem c7_dry_run_no_effects (env : CliEnv) (v q : Nat) (i sm : Bool)
    (cmdToks : List String) (dfo dso : Option String) (wdo : Option DsPath)
    (fs : Fs) (cwd : DsPath) :
    (cli env ⟨true, v, q, i, cmdToks, dfo, dso, wdo, sm⟩ fs cwd).trace = [] ∧
      (cli env ⟨true, v, q, i, cmdToks, dfo, dso, wdo, sm⟩ fs cwd).fsOut = fs ∧
      (cli env ⟨true, v, q, i, cmdToks, dfo, dso, wdo, sm⟩ fs cwd).cwdOut = cwd := by
  obtain ⟨h, u, us, g, ex⟩ := env
  cases g <;> refine ⟨?_, ?_, ?_⟩ <;>
    simp [cli, getRoot, cliWithRoot, ite_self]

/-- Claim C8: in normal mode, when the definition file exists (after the init
step), the build step actually runs (the joined command re-splits
successfully — otherwise no build step occurs and the claim's antecedent
is vacuous), and it exits with a non-zero status, the tool aborts with a
`CalledProcessError` carrying the exit status and the build command that
failed, the process is never replaced by a run step, and the only spawned
command is the build command. -/
theorem c8_build_failure_fatal (home : DsPath) (uid : Nat) (user s : String)
    (exitF : List String → Int) (v q : Nat) (i : Bool) (cmdToks toks : List String)
    (dfo dso : Option String) (wdo : Option DsPath) (fs : Fs) (cwd : DsPath)
    (hToks : retokenize cmdToks = some toks)
    (hEx : ((if i then createDockerfile fs (getDockerfile fs (rootOf s) cwd) false else fs)
        (getDockerfile fs (rootOf s) cwd)).isSome = true)
    (hFail : exitF (dsBuildCmd user uid (rootOf s) (wdo.getD cwd)) ≠ 0) :
    (cli ⟨home, uid, user, .output s, exitF⟩
          ⟨false, v, q, i, cmdToks, dfo, dso, wdo, false⟩ fs cwd).outcome
        = .calledProcessError (exitF (dsBuildCmd user uid (rootOf s) (wdo.getD cwd)))
            (dsBuildCmd user uid (rootOf s) (wdo.getD cwd)) ∧
      (∀ c, Eff.execReplace c ∉ (cli ⟨home, uid, user, .output s, exitF⟩
          ⟨false, v, q, i, cmdToks, dfo, dso, wdo, false⟩ fs cwd).trace) ∧
      (∀ c qf, Eff.spawn c qf ∈ (cli ⟨home, uid, user, .output s, exitF⟩
            ⟨false, v, q, i, cmdToks, dfo, dso, wdo, false⟩ fs cwd).trace →
          c = dsBuildCmd user uid (rootOf s) (wdo.getD cwd)) := by
  have hc : cli ⟨home, uid, user, .output s, exitF⟩
      ⟨false, v, q, i, cmdToks, dfo, dso, wdo, false⟩ fs cwd
      = cliWithRoot ⟨home, uid, user, .output s, exitF⟩
        ⟨false, v, q, i, cmdToks, dfo, dso, wdo, false⟩ fs cwd (rootOf s) := rfl
  rw [hc, cliWithRoot_build_failure _ v q i cmdToks toks dfo dso wdo fs cwd (rootOf s)
    hToks hEx hFail]
  refine ⟨rfl, ?_, ?_⟩ <;> cases i <;> simp

/-- Witness for C8 at the demonstration configuration with a build step that
exits with status 3. -/
theorem c8_build_failure_fatal_witness :
    ((if false then createDockerfile demoFs demoDf false else demoFs) demoDf).isSome = true ∧
      retokenize [] = some [] ∧
      (3 : Int) ≠ 0 ∧
      (cli ⟨demoHome, 1000, "alice", .output "/proj\n", fun _ => 3⟩
            ⟨false, 0, 0, false, [], none, none, none, false⟩
            demoFs demoCwd).outcome
          = .calledProcessError ((fun _ => (3 : Int)) (dsBuildCmd "alice" 1000 demoRoot demoCwd))
              (dsBuildCmd "alice" 1000 demoRoot demoCwd) ∧
      (∀ c, Eff.execReplace c ∉ (cli ⟨demoHome, 1000, "alice", .output "/proj\n", fun _ => 3⟩
          ⟨false, 0, 0, false, [], none, none, none, false⟩ demoFs demoCwd).trace) ∧
      (∀ c qf, Eff.spawn c qf ∈ (cli ⟨demoHome, 1000, "alice", .output "/proj\n", fun _ => 3⟩
            ⟨false, 0, 0, false, [], none, none, none, false⟩ demoFs demoCwd).trace →
          c = dsBuildCmd "alice" 1000 demoRoot demoCwd) :=
  ⟨by decide, by decide, by decide,
    (c8_build_failure_fatal demoHome 1000 "alice" "/proj\n" (fun _ => 3) 0 0 false
        [] [] none none none demoFs demoCwd (by decide) (by decide) (by decide)).1,
    ((c8_build_failure_fatal demoHome 1000 "alice" "/proj\n" (fun _ => 3) 0 0 false
        [] [] none none none demoFs demoCwd (by decide) (by decide) (by decide)).2).1,
    ((c8_build_failure_fatal demoHome 1000 "alice" "/proj\n" (fun _ => 3) 0 0 false
        [] [] none none none demoFs demoCwd (by decide) (by decide) (by decide)).2).2⟩

/-- Claim C10: when script mode and `--init` are both set and dry-run is not,
the tool still deletes and rewrites the definition file on disk before
anything else — in particular before emitting any script line — and
script mode suppresses only the execution of the build and run commands
(no spawn, no exec ever), not the file-generation side effect; whenever
the joined command re-splits successfully the full trace is the unlink,
the write, and then the two chdir/shebang/command-line groups. -/
theorem c10_script_init_still_writes (home : DsPath) (uid : Nat) (user s : String)
    (exitF : List String → Int) (v q : Nat) (cmdToks : List String)
    (dfo dso : Option String) (wdo : Option DsPath) (fs : Fs) (cwd : DsPath) :
    ((cli ⟨home, uid, user, .output s, exitF⟩
          ⟨false, v, q, true, cmdToks, dfo, dso, wdo, true⟩ fs cwd).trace).take 2
        = [Eff.unlink (getDockerfile fs (rootOf s) cwd),
            Eff.writeFile (getDockerfile fs (rootOf s) cwd) dockerfile_template] ∧
      (cli ⟨home, uid, user, .output s, exitF⟩
          ⟨false, v, q, true, cmdToks, dfo, dso, wdo, true⟩ fs cwd).fsOut
          (getDockerfile fs (rootOf s) cwd)
        = some dockerfile_template ∧
      (∀ c qf, Eff.spawn c qf ∉ (cli ⟨home, uid, user, .output s, exitF⟩
          ⟨false, v, q, true, cmdToks, dfo, dso, wdo, true⟩ fs cwd).trace) ∧
      (∀ c, Eff.execReplace c ∉ (cli ⟨home, uid, user, .output s, exitF⟩
          ⟨false, v, q, true, cmdToks, dfo, dso, wdo, true⟩ fs cwd).trace) ∧
      (∀ toks, retokenize cmdToks = some toks →
        (cli ⟨home, uid, user, .output s, exitF⟩
            ⟨false, v, q, true, cmdToks, dfo, dso, wdo, true⟩ fs cwd).trace
          = [Eff.unlink (getDockerfile fs (rootOf s) cwd),
              Eff.writeFile (getDockerfile fs (rootOf s) cwd) dockerfile_template,
              Eff.chdir (parentDir (getDockerfile fs (rootOf s) cwd)),
              Eff.print "#!/bin/bash",
              Eff.print (String.intercalate " "
                (dsBuildCmd user uid (rootOf s) (wdo.getD cwd))),
              Eff.chdir (wdo.getD cwd),
              Eff.print "#!/bin/bash",
              Eff.print (String.intercalate " "
                (dsRunCmd home user (wdo.getD cwd) toks))]) := by
  have hc : cli ⟨home, uid, user, .output s, exitF⟩
      ⟨false, v, q, true, cmdToks, dfo, dso, wdo, true⟩ fs cwd
      = cliWithRoot ⟨home, uid, user, .output s, exitF⟩
        ⟨false, v, q, true, cmdToks, dfo, dso, wdo, true⟩ fs cwd (rootOf s) := rfl
  have hEx : ((if true then createDockerfile fs (getDockerfile fs (rootOf s) cwd) true else fs)
      (getDockerfile fs (rootOf s) cwd)).isSome = true := by
    simp [createDockerfile]
  cases hT : retokenize cmdToks with
  | none =>
    rw [hc, cliWithRoot_shlex_failure _ v q true true cmdToks dfo dso wdo fs cwd (rootOf s)
      hT hEx]
    refine ⟨by simp, by simp [createDockerfile], by simp, by simp, ?_⟩
    intro toks hToks
    cases hToks
  | some toks =>
    rw [hc, cliWithRoot_script _ v q true cmdToks toks dfo dso wdo fs cwd (rootOf s) hT hEx]
    refine ⟨by simp, by simp [createDockerfile], by simp, by simp, ?_⟩
    intro toks' hToks'
    obtain rfl : toks = toks' := by simpa using hToks'
    simp

example : chain ["a", "b"] = [["a", "b"], ["a"], []] := by decide

example :
    getDockerfile (fun p => if p = ["a", "Dockerfile"] then some "x" else none)
      ["a"] ["a", "b"] = ["a", "Dockerfile"] := by decide

example :
    getDockerfile (fun _ => none) ["a"] ["a", "b"] = ["a", "Dockerfile"] := by
  decide
